import Mathlib

/-!
Verification of the squidpy image-segmentation fragment.

Shallow embedding of `src/squidpy/image/segment.py` and
`src/squidpy/pl/_utils.py`.  Label masks are nonnegative integer arrays
(0 = background, positive = region labels), embedded as `List (List Nat)`
in row-major order (axis 0 = rows / y, axis 1 = columns / x).  Container
and crop helpers (`uncrop_img`, `ImageContainer.crop`, `add_img`) are not
part of the repository's files; they are modelled from the spec where
needed and marked as such.
-/

namespace Squidpy

/-- A 2-d integer array (label mask or single-channel image). -/
abbrev Grid := List (List Nat)

/-- Maximum of a list of naturals, 0 for the empty list: `np.max` on a
nonnegative integer array (flattened). -/
def maxl (l : List Nat) : Nat := l.foldr max 0

/-- Elementwise offsetting of a flat list of labels:
`arr[arr > 0] = arr[arr > 0] + c`, zero entries untouched. -/
def offset1 (c : Nat) (l : List Nat) : List Nat :=
  l.map (fun v => if 0 < v then v + c else v)

/-- Line 235, `crop_new[crop_new > 0] = crop_new[crop_new > 0] + counter`,
on a 2-d mask. -/
def offsetGrid (c : Nat) (g : Grid) : Grid :=
  g.map (fun row => row.map (fun v => if 0 < v then v + c else v))

/-- The global-relabeling loop of `segment` (segment.py lines 232-237), as
written.  In the source `crop_new = x` binds the same ndarray object, and
the fancy-index assignment mutates it in place, so the subsequent
`counter += np.max(x)` reads the maximum of the already-offset tile.
Returns the relabeled tiles and the final counter. -/
def relabelLoop : Nat → List Grid → List Grid × Nat
  | c, [] => ([], c)
  | c, g :: gs =>
    let g2 := offsetGrid c g
    let rest := relabelLoop (c + maxl g2.flatten) gs
    (g2 :: rest.1, rest.2)

/-- The relabeling scheme as the spec describes it: after offsetting tile
i by the running counter, the counter increases by the tile's local max
taken before the offset was applied.  Kept for comparison with
`relabelLoop`, which is the source's behaviour. -/
def relabelLoopSpec : Nat → List Grid → List Grid × Nat
  | c, [] => ([], c)
  | c, g :: gs =>
    let g2 := offsetGrid c g
    let rest := relabelLoopSpec (c + maxl g.flatten) gs
    (g2 :: rest.1, rest.2)

/-- Density of a local label mask: every value 1..max occurs ("segments
are numbered from 1..number of segments within each crop"). -/
def denseB (g : Grid) : Bool :=
  (List.range (maxl g.flatten)).all (fun k => g.flatten.contains (k + 1))

/-- Value of tile `g` placed at origin `(x0, y0)` at canvas point
`(y, x)`, if the tile covers that point. -/
def coverVal (g : Grid) (x0 y0 y x : Nat) : Option Nat :=
  if y0 ≤ y ∧ y < y0 + g.length ∧ x0 ≤ x ∧ x < x0 + (g.headD []).length then
    some ((g.getD (y - y0) []).getD (x - x0) 0)
  else none

/-- Modelled from the spec: `uncrop_img` (imported by segment.py from the
crop module, whose code is not among the repository's files) places each
tile into a blank canvas sized to the whole source image at its recorded
origin offset; tiles are assumed non-overlapping, and pixels covered by
no tile stay 0. -/
def uncrop_img (crops : List Grid) (xc yc : List Nat) (y x : Nat) : Nat :=
  match (crops.zip (xc.zip yc)).findSome? (fun t => coverVal t.1 t.2.1 t.2.2 y x) with
  | some v => v
  | none => 0

/-- The merged canvas of width `w` and height `h` as a grid. -/
def uncropGrid (crops : List Grid) (xc yc : List Nat) (w h : Nat) : Grid :=
  (List.range h).map (fun y => (List.range w).map (fun x => uncrop_img crops xc yc y x))

/-- What a backend call receives for one tile (segment.py line 228): with
an integer `channel_idx` the indexing `x[{"channels": i}]` drops the
channel axis and passes a 2-d array; otherwise the slice
`slice(0, crops[0].channels.shape[0])` keeps the channel axis. -/
inductive BackendInput
  | twoD (g : Grid)
  | threeD (gs : List Grid)
deriving DecidableEq, Repr

/-- Channel selection over all tiles (segment.py lines 227-228).  A tile
is a list of channels, each a grid.  `isinstance(channel_idx, int)`
selects that channel only; otherwise the slice length is taken from the
first tile. -/
def channelSelect (channel_idx : Option Nat) (tiles : List (List Grid)) :
    List BackendInput :=
  match channel_idx with
  | some i => tiles.map (fun t => .twoD (t.getD i []))
  | none => tiles.map (fun t => .threeD (t.take (tiles.headD []).length))

/-- Errors `segment` can surface: the dispatch-time ValueError of
segment.py line 224 (the spec's ConfigurationError taxon) and an
exception raised inside a backend call, carried verbatim. -/
inductive SegError
  | config (msg : String)
  | propagated (msg : String)
deriving DecidableEq, Repr

/-- The image container's key space: named grids.  The container object
itself lives outside the repository's files; only its key-value surface
is needed here. -/
abbrev Container := List (String × Grid)

/-- Modelled from the spec: `ImageContainer.add_img` (object module, not
among the repository's files) stores an image under a key, overwriting an
existing entry of that key or appending a new one. -/
def addImg (cont : Container) (k : String) (g : Grid) : Container :=
  if cont.any (fun p => p.1 == k) then
    cont.map (fun p => if p.1 == k then (k, g) else p)
  else cont ++ [(k, g)]

/-- The per-tile backend calls of segment.py line 228, in list order: the
first raised exception aborts the whole comprehension and propagates. -/
def runTiles (backend : BackendInput → Except String Grid) :
    List BackendInput → Except String (List Grid)
  | [] => .ok []
  | t :: ts =>
    match backend t with
    | .error e => .error e
    | .ok m =>
      match runTiles backend ts with
      | .error e => .error e
      | .ok ms => .ok (m :: ms)

/-- How many backend calls were started before the comprehension finished
or aborted (the failing call included). -/
def attemptCount (backend : BackendInput → Except String Grid) :
    List BackendInput → Nat
  | [] => 0
  | t :: ts =>
    match backend t with
    | .error _ => 1
    | .ok _ => 1 + attemptCount backend ts

/-- The backend family names the dispatch chain of segment.py lines
217-224 recognizes. -/
def knownGroup (g : String) : Bool :=
  g == "skimage_blob" || g == "watershed" || g == "tensorflow"

/-- Output key: `key_added`, or `"segmented_" + model_group.lower()`
(segment.py line 239). -/
def defaultKey (model_group : String) (key_added : Option String) : String :=
  match key_added with
  | some k => k
  | none => "segmented_" ++ model_group.toLower

/-- Observable outcome of one `segment` call: the raised error if any,
the container afterwards, whether `crop_equally` was reached, and how
many tiles a backend call was started on. -/
structure SegOut where
  result : Except SegError Unit
  container : Container
  cropped : Bool
  tilesProcessed : Nat
deriving Repr

/-- The `segment` entry point (segment.py lines 216-240).  The dispatch
chain runs first: an unrecognized `model_group` raises before
`crop_equally` is called.  `tiles` stands for the tile list
`crop_equally` returns (its code is outside the repository's files), and
`backend` for the constructed model's bound `segment` method.  On success
the relabeled tiles are merged and stored; a backend exception aborts the
call before anything is written to the container. -/
def segment (model_group : String) (backend : BackendInput → Except String Grid)
    (channel_idx : Option Nat) (tiles : List (List Grid)) (xc yc : List Nat)
    (w h : Nat) (key_added : Option String) (cont : Container) : SegOut :=
  if knownGroup model_group then
    let inputs := channelSelect channel_idx tiles
    match runTiles backend inputs with
    | .error e => ⟨.error (.propagated e), cont, true, attemptCount backend inputs⟩
    | .ok ms =>
      ⟨.ok (), addImg cont (defaultKey model_group key_added)
          (uncropGrid (relabelLoop 0 ms).1 xc yc w h), true, inputs.length⟩
  else ⟨.error (.config model_group), cont, false, 0⟩

/-- What may be passed as the `model` handle of
`SegmentationModelPretrainedTensorflow`: a keras model (a callable on
arrays) or a value of any other type. -/
inductive TFHandle
  | keras (f : Grid → Grid)
  | notKeras (descr : String)

/-- The pretrained-model backend (segment.py lines 144-170): holds the
callable model. -/
structure SegmentationModelPretrainedTensorflow where
  model : Grid → Grid

/-- Constructor of `SegmentationModelPretrainedTensorflow` (lines
147-151): `assert isinstance(model, tf.keras.model.Model)` fails at
construction for a handle of the wrong type (the spec's
ConfigurationError taxon). -/
def mkPretrainedTensorflow :
    TFHandle → Except SegError SegmentationModelPretrainedTensorflow
  | .keras f => .ok ⟨f⟩
  | .notKeras _ => .error (.config "model should be a tf keras model instance")

/-- The `_segment` method of the pretrained backend (line 170): applies the callable
model and returns its output unchanged, with no validation. -/
def SegmentationModelPretrainedTensorflow.segmentArr
    (m : SegmentationModelPretrainedTensorflow) (arr : Grid) : Grid :=
  m.model arr

/-- Tile 1 of the spec's concrete scenario: a 10x10 mask whose labels are
exactly {0, 1, 2} (local max 2). -/
def scenTile1 : Grid :=
  [1, 1, 2, 2, 0, 0, 0, 0, 0, 0] :: List.replicate 9 (List.replicate 10 0)

/-- Tile 2 of the spec's concrete scenario: a 10x10 mask whose labels are
exactly {0, 1} (local max 1). -/
def scenTile2 : Grid :=
  [1, 0, 0, 0, 0, 0, 0, 0, 0, 0] :: List.replicate 9 (List.replicate 10 0)

/-- Modelled from the spec: `ImageContainer.crop` (object module, not
among the repository's files) extracts a tile from the source image
centered at the given point with caller-specified width/height; a crop is
a value copy determined by the source, the centre and the sizes. -/
structure CropRect where
  x : Nat
  y : Nat
  xs : Option Nat
  ys : Option Nat
  source : Grid
deriving DecidableEq, Repr

/-- The call `img.crop(x=.., y=.., xs=.., ys=.., img_id=..)` as a value. -/
def crop (source : Grid) (x y : Nat) (xs ys : Option Nat) : CropRect :=
  ⟨x, y, xs, ys, source⟩

/-- The pixels carrying label `l` in a label map, in row-major order:
`np.where(arr == l)` as (row, column) pairs. -/
def labelPixels (g : Grid) (l : Nat) : List (Nat × Nat) :=
  (List.range g.length).flatMap (fun r =>
    ((List.range (g.getD r []).length).filter
      (fun c => (g.getD r []).getD c 0 == l)).map (fun c => (r, c)))

/-- Centre of a labeled region as segment_crops computes it
(segment.py lines 270-277): `int(np.mean(...))` of the row indices and of
the column indices.  Python `int()` truncates toward zero, which for the
nonnegative means here is the floor, i.e. natural division of the
coordinate sum by the pixel count. -/
def centreOf (g : Grid) (l : Nat) : Nat × Nat :=
  let ps := labelPixels g l
  ((ps.map Prod.fst).sum / ps.length, (ps.map Prod.snd).sum / ps.length)

/-- The label enumeration of segment_crops (line 275):
`np.sort(list(set(np.unique(arr)) - {0}))` — the distinct values, zero
removed, sorted ascending. -/
def segLabelsList (g : Grid) : List Nat :=
  List.insertionSort (· ≤ ·) (g.flatten.dedup.filter (fun v => v != 0))

/-- The same enumeration stated independently of sorting machinery: the
nonzero values present in the map, listed in increasing order. -/
def specLabels (g : Grid) : List Nat :=
  (List.range (maxl g.flatten + 1)).filter (fun v => decide (v ≠ 0 ∧ v ∈ g.flatten))

/-- The `segment_crops` function (segment.py lines 243-277): one crop of the original
image per distinct nonzero label of the label map, centred at the
truncated centroid.  The label map is the stored 2-d mask (the container
and crop code are outside the repository's files and modelled from the
spec). -/
def segment_crops (img seg : Grid) (xs ys : Option Nat) : List CropRect :=
  ((segLabelsList seg).map (centreOf seg)).map (fun c => crop img c.1 c.2 xs ys)

/-- Half-up rounding of the rational num/den to the nearest integer, for
comparison with the claim's "rounded to the nearest integer". -/
def roundNearest (num den : Nat) : Nat := (2 * num + den) / (2 * den)

/-- Centre of a labeled region as the claim words it: the centroid means
rounded to the nearest integer. -/
def centreOfClaim (g : Grid) (l : Nat) : Nat × Nat :=
  let ps := labelPixels g l
  (roundNearest (ps.map Prod.fst).sum ps.length,
   roundNearest (ps.map Prod.snd).sum ps.length)

/-- The crop extractor as the claim describes it (crops centred at the
nearest-integer-rounded centroid), for comparison with the source's
behaviour. -/
def segment_cropsClaim (img seg : Grid) (xs ys : Option Nat) : List CropRect :=
  ((specLabels seg).map (centreOfClaim seg)).map (fun c => crop img c.1 c.2 xs ys)

/-- Image stored in the container under a key (empty grid when the key is
absent; segment_crops would raise a KeyError there, a path the claims do
not touch). -/
def getImg (cont : Container) (k : String) : Grid :=
  (cont.find? (fun p => p.1 == k)).elim [] Prod.snd

/-- The crop extractor run against the container, with the container state
after the call made explicit.  The body only reads
`img.data[segmented_img_id]` and builds value-copy crops (np.unique,
np.where, np.mean and `img.crop` do not write to the container), so the
state after the call is the state before it. -/
def segmentCropsState (cont : Container) (img_id seg_id : String)
    (xs ys : Option Nat) : List CropRect × Container :=
  (segment_crops (getImg cont img_id) (getImg cont seg_id) xs ys, cont)

/-- A string-or-list-of-strings argument of `extract`
(pl/_utils.py lines 62-65). -/
inductive StrOrList
  | one (s : String)
  | many (l : List String)
deriving DecidableEq, Repr

/-- Normalization of `obsm_key` (lines 98-99): a lone string becomes a
one-element list. -/
def StrOrList.toListStr : StrOrList → List String
  | .one s => [s]
  | .many l => l

/-- One entry of `adata.obsm`: a data frame with named columns or a 2-d
array with integer-indexed columns. -/
inductive ObsmEntry
  | df (cols : List (String × List Int))
  | mat (rows : List (List Int))
deriving DecidableEq, Repr

/-- The slice of an AnnData object `extract` touches: the obs columns and
the obsm entries, both keyed by name. -/
structure AnnData where
  obs : List (String × List Int)
  obsm : List (String × ObsmEntry)
deriving DecidableEq, Repr

/-- The write `tmp_adata.obs[obs_key] = values`: overwrite the column if the key
exists, else append it. -/
def setObs (obs : List (String × List Int)) (k : String) (v : List Int) :
    List (String × List Int) :=
  if obs.any (fun p => p.1 == k) then
    obs.map (fun p => if p.1 == k then (k, v) else p)
  else obs ++ [(k, v)]

/-- Column `j` of a 2-d obsm array (`obsm[:, j]`). -/
def colOf (rows : List (List Int)) (j : Nat) : List Int :=
  rows.map (fun r => r.getD j 0)

/-- Column count `obsm.shape[1]` of a rectangular 2-d array. -/
def numCols (rows : List (List Int)) : Nat := (rows.headD []).length

/-- The inner copy loop of `extract` for one obsm entry
(lines 120-133): data-frame columns keep their names, array columns get
integer names, each prefixed. -/
def writeEntry (pfx : String) (e : ObsmEntry)
    (obs : List (String × List Int)) : List (String × List Int) :=
  match e with
  | .df cols => cols.foldl (fun acc c => setObs acc (pfx ++ c.1) c.2) obs
  | .mat rows =>
    (List.range (numCols rows)).foldl
      (fun acc j => setObs acc (pfx ++ toString j) (colOf rows j)) obs

/-- Lookup `adata.obsm[k]` with Python's KeyError made explicit. -/
def findObsm (a : AnnData) (k : String) : Except String ObsmEntry :=
  match a.obsm.find? (fun p => p.1 == k) with
  | some p => .ok p.2
  | none => .error ("KeyError: " ++ k)

/-- Prefix normalization of `extract` (lines 101-116): no prefix gives
empty prefixes; a prefix list of matching length (or a single prefix,
repeated) gets an underscore appended; any other length mismatch raises
ValueError. -/
def mkPrefixes (ks : List String) : Option StrOrList → Except String (List String)
  | none => .ok (ks.map (fun _ => ""))
  | some p =>
    let ps := p.toListStr
    if ks.length = ps.length then .ok (ps.map (fun s => s ++ "_"))
    else if ps.length = 1 then .ok (ks.map (fun _ => ps.headD "" ++ "_"))
    else .error "length of prefix does not fit length of obsm_key"

/-- The main loop of `extract` (lines 120-133): reads each obsm entry of
the input `adata` and writes the columns into the working copy `tmp`;
every write targets `tmp`, never `adata`. -/
def extractLoop (adata : AnnData) :
    List (String × String) → AnnData → Except String AnnData
  | [], tmp => .ok tmp
  | kp :: rest, tmp =>
    match findObsm adata kp.1 with
    | .error e => .error e
    | .ok entry => extractLoop adata rest { tmp with obs := writeEntry kp.2 entry tmp.obs }

/-- The `extract` function (pl/_utils.py lines 62-135), with the state of the input
object after the call made explicit as the second component.
`tmp_adata = adata.copy()` is a value copy; all column writes go to the
copy, which is returned, and the input is only read.  The `_warn_if...`
helper only logs and is omitted. -/
def extractResult (adata : AnnData) (obsm_key : StrOrList)
    (pfx : Option StrOrList) : Except String AnnData :=
  let ks := obsm_key.toListStr
  match mkPrefixes ks pfx with
  | .error e => .error e
  | .ok ps => extractLoop adata (ks.zip ps) adata

/-- The full call: the returned value and, made explicit, the state of
the input object after the call.  The input is only read (the prefix
check raises before the copy; every later write targets the copy), so
the post-state is the input itself. -/
def extract (adata : AnnData) (obsm_key : StrOrList)
    (pfx : Option StrOrList) : Except String AnnData × AnnData :=
  (extractResult adata obsm_key pfx, adata)

/-- Merged value at canvas point `(y, x)` for the scenario: the two
relabeled tiles placed at x-offsets 0 and 10 (y-offset 0 each) on the
20-wide, 10-tall canvas. -/
def scenMerged (y x : Nat) : Nat :=
  uncrop_img (relabelLoop 0 [scenTile1, scenTile2]).1 [0, 10] [0, 0] y x

/-- The whole merged 20x10 canvas of the scenario. -/
def scenCanvas : Grid :=
  uncropGrid (relabelLoop 0 [scenTile1, scenTile2]).1 [0, 10] [0, 0] 20 10

/-! ## Helper lemmas -/

theorem mem_le_maxl {v : Nat} {l : List Nat} (h : v ∈ l) : v ≤ maxl l := by
  induction l with
  | nil => cases h
  | cons w ws ih =>
    rcases List.mem_cons.mp h with rfl | h'
    · exact le_max_left _ _
    · exact le_trans (ih h') (le_max_right _ _)

theorem flatten_offsetGrid (c : Nat) (g : Grid) :
    (offsetGrid c g).flatten = offset1 c g.flatten := by
  induction g with
  | nil => rfl
  | cons row rest ih =>
    simp only [offsetGrid, List.map_cons, List.flatten_cons, offset1, List.map_append]
    simp only [offsetGrid, offset1] at ih
    rw [ih]

theorem mem_offset1_lt {c v : Nat} {l : List Nat} (h : v ∈ offset1 c l)
    (hv : 0 < v) : c < v := by
  rcases List.mem_map.mp h with ⟨w, _, rfl⟩
  by_cases hw : 0 < w
  · simp only [if_pos hw]; omega
  · simp only [if_neg hw] at hv ⊢; omega

theorem relabelLoop_cons (c : Nat) (g : Grid) (gs : List Grid) :
    relabelLoop c (g :: gs) =
      (offsetGrid c g :: (relabelLoop (c + maxl (offsetGrid c g).flatten) gs).1,
       (relabelLoop (c + maxl (offsetGrid c g).flatten) gs).2) := rfl

theorem relabel_lower :
    ∀ (gs : List Grid) (c i v : Nat),
      v ∈ (((relabelLoop c gs).1.getD i ([] : Grid)).flatten) → 0 < v → c < v := by
  intro gs
  induction gs with
  | nil =>
    intro c i v hv _
    simp [relabelLoop] at hv
  | cons g gs ih =>
    intro c i v hv hpos
    rw [relabelLoop_cons] at hv
    cases i with
    | zero =>
      rw [List.getD_cons_zero, flatten_offsetGrid] at hv
      exact mem_offset1_lt hv hpos
    | succ n =>
      rw [List.getD_cons_succ] at hv
      exact lt_of_le_of_lt (Nat.le_add_right c _) (ih _ n v hv hpos)

theorem relabel_disjoint :
    ∀ (gs : List Grid) (c i j v : Nat), i < j →
      v ∈ (((relabelLoop c gs).1.getD i ([] : Grid)).flatten) →
      v ∈ (((relabelLoop c gs).1.getD j ([] : Grid)).flatten) → 0 < v → False := by
  intro gs
  induction gs with
  | nil =>
    intro c i j v _ hi _ _
    simp [relabelLoop] at hi
  | cons g gs ih =>
    intro c i j v hij hi hj hpos
    rw [relabelLoop_cons] at hi hj
    cases i with
    | zero =>
      cases j with
      | zero => omega
      | succ n =>
        rw [List.getD_cons_zero] at hi
        rw [List.getD_cons_succ] at hj
        have h1 : v ≤ maxl (offsetGrid c g).flatten := mem_le_maxl hi
        have h2 : c + maxl (offsetGrid c g).flatten < v :=
          relabel_lower gs _ n v hj hpos
        omega
    | succ m =>
      cases j with
      | zero => omega
      | succ n =>
        rw [List.getD_cons_succ] at hi hj
        exact ih _ m n v (by omega) hi hj hpos

theorem runTiles_error (backend : BackendInput → Except String Grid) :
    ∀ (ts : List BackendInput) (t : BackendInput) (e : String), t ∈ ts →
      backend t = .error e → (∀ u ∈ ts, u ≠ t → ∃ m, backend u = .ok m) →
      runTiles backend ts = .error e := by
  intro ts
  induction ts with
  | nil => intro t e h; cases h
  | cons a as ih =>
    intro t e ht he hrest
    by_cases hat : a = t
    · subst hat
      simp [runTiles, he]
    · rcases hrest a (List.mem_cons_self a as) hat with ⟨m, hm⟩
      have ht' : t ∈ as := by
        rcases List.mem_cons.mp ht with rfl | h'
        · exact absurd rfl hat
        · exact h'
      have hr := ih t e ht' he (fun u hu hut => hrest u (List.mem_cons_of_mem a hu) hut)
      simp [runTiles, hm, hr]

theorem extractLoop_obsm (adata : AnnData) :
    ∀ (l : List (String × String)) (tmp t : AnnData),
      extractLoop adata l tmp = .ok t → t.obsm = tmp.obsm := by
  intro l
  induction l with
  | nil =>
    intro tmp t h
    cases h
    rfl
  | cons kp rest ih =>
    intro tmp t h
    unfold extractLoop at h
    cases hf : findObsm adata kp.1 with
    | error e => rw [hf] at h; cases h
    | ok entry =>
      rw [hf] at h
      exact ih { tmp with obs := writeEntry kp.2 entry tmp.obs } t h

/-! ## Claim theorems -/

/-- C1: the claim reads the relabeling loop as "offset tile i's positive
labels by the running counter, then increase the counter by exactly m_i,
the tile's local max before the offset".  The source aliases `crop_new`
to `x` and mutates it in place, so `counter += np.max(x)` adds the
post-offset max instead.  On three 1x1 tiles each holding local label 1
the source's loop (`relabelLoop`) yields labels 1, 2, 4 and final counter
7, while the claimed scheme (`relabelLoopSpec`) yields labels 1, 2, 3 and
final counter 3. -/
theorem relabel_counter_divergence :
    relabelLoop 0 [[[1]], [[1]], [[1]]] = ([[[1]], [[2]], [[4]]], 7) ∧
    relabelLoopSpec 0 [[[1]], [[1]], [[1]]] = ([[[1]], [[2]], [[3]]], 3) := by
  decide

/-- C2: for dense per-tile label masks, after the relabel step any
positive label value occurring in the output for tile i and also in the
output for tile j forces i = j: the post-offset nonzero label sets of
distinct tiles are disjoint. -/
theorem relabel_labels_disjoint (gs : List Grid)
    (_hdense : ∀ g ∈ gs, denseB g = true) (i j v : Nat) (hv : 0 < v)
    (hi : v ∈ (((relabelLoop 0 gs).1.getD i ([] : Grid)).flatten))
    (hj : v ∈ (((relabelLoop 0 gs).1.getD j ([] : Grid)).flatten)) : i = j := by
  rcases Nat.lt_trichotomy i j with h | h | h
  · exact (relabel_disjoint gs 0 i j v h hi hj hv).elim
  · exact h
  · exact (relabel_disjoint gs 0 j i v h hj hi hv).elim

/-- Witness for C2 at the spec's scenario masks: both masks are dense,
and label 3 (tile 2's offset label) occurs only in tile 2's output. -/
theorem relabel_labels_disjoint_witness :
    (∀ g ∈ [[[0, 1, 2]], [[0, 1]]], denseB g = true) ∧ (1 : Nat) = 1 :=
  ⟨by decide,
   relabel_labels_disjoint [[[0, 1, 2]], [[0, 1]]] (by decide) 1 1 3
     (by decide) (by decide) (by decide)⟩

/-- C4: inside a recognized backend family, if the backend call fails on
the (only failing) tile, `segment` surfaces exactly that error, carried
verbatim, and the container is left unchanged: no partial result is
committed under any key. -/
theorem segment_propagates_backend_error (g : String)
    (backend : BackendInput → Except String Grid) (ci : Option Nat)
    (tiles : List (List Grid)) (xc yc : List Nat) (w h : Nat)
    (key : Option String) (cont : Container) (t : BackendInput) (e : String)
    (hg : knownGroup g = true) (ht : t ∈ channelSelect ci tiles)
    (he : backend t = .error e)
    (hrest : ∀ u ∈ channelSelect ci tiles, u ≠ t → ∃ m, backend u = .ok m) :
    (segment g backend ci tiles xc yc w h key cont).result
        = .error (.propagated e) ∧
    (segment g backend ci tiles xc yc w h key cont).container = cont := by
  have hrun : runTiles backend (channelSelect ci tiles) = .error e :=
    runTiles_error backend _ t e ht he hrest
  constructor <;> simp [segment, hg, hrun]

/-- Witness for C4: a backend failing with "boom" on the single tile. -/
theorem segment_propagates_backend_error_witness :
    (segment "watershed" (fun _ => .error "boom") none [[[[1]]]] [0] [0] 1 1
        none []).result = .error (.propagated "boom") ∧
    (segment "watershed" (fun _ => .error "boom") none [[[[1]]]] [0] [0] 1 1
        none []).container = [] :=
  segment_propagates_backend_error "watershed" (fun _ => .error "boom") none
    [[[[1]]]] [0] [0] 1 1 none [] (BackendInput.threeD [[[1]]]) "boom"
    (by decide) (by decide) rfl
    (fun u hu hut => (hut (List.eq_of_mem_singleton hu)).elim)

/-- C5: a `model_group` outside {skimage_blob, watershed, tensorflow}
makes `segment` raise the dispatch error (the spec's ConfigurationError)
with the container untouched, no cropping done and zero tiles
processed. -/
theorem segment_unknown_group_config_error (g : String)
    (backend : BackendInput → Except String Grid) (ci : Option Nat)
    (tiles : List (List Grid)) (xc yc : List Nat) (w h : Nat)
    (key : Option String) (cont : Container) (hg : knownGroup g = false) :
    segment g backend ci tiles xc yc w h key cont
      = ⟨.error (.config g), cont, false, 0⟩ := by
  simp [segment, hg]

/-- Witness for C5 with the spec's backend family name "nonexistent". -/
theorem segment_unknown_group_config_error_witness :
    segment "nonexistent" (fun _ => .ok []) none [] [] [] 1 1 none []
      = ⟨.error (.config "nonexistent"), [], false, 0⟩ :=
  segment_unknown_group_config_error "nonexistent" (fun _ => .ok []) none
    [] [] [] 1 1 none [] (by decide)

/-- C3: the spec's concrete scenario.  A 20x10 source image is tiled into
two 10x10 tiles with recorded x-offsets 0 and 10.  Tile 1's segmentation
yields local labels {0, 1, 2} and tile 2's yields {0, 1}.  After relabel
and merge, tile 1's region of the canvas carries tile 1's mask unchanged
(labels {1, 2}), tile 2's local label 1 appears as 3 at tile 2's offset,
and the merged canvas carries exactly the label set {0, 1, 2, 3}. -/
theorem scenario_merge_correct :
    (segLabelsList scenTile1 = [1, 2] ∧ segLabelsList scenTile2 = [1]) ∧
    ((List.range 10).all (fun y => (List.range 10).all (fun x =>
        scenMerged y x == (scenTile1.getD y []).getD x 0)) = true) ∧
    ((List.range 10).all (fun y => (List.range 10).all (fun x =>
        scenMerged y (10 + x)
          == (if (scenTile2.getD y []).getD x 0 == 1 then 3 else 0))) = true) ∧
    ((List.range 10).all (fun y => (List.range 20).all (fun x =>
        [0, 1, 2, 3].contains (scenMerged y x))) = true) ∧
    ((0 : Nat) ∈ scenCanvas.flatten ∧ 1 ∈ scenCanvas.flatten ∧
      2 ∈ scenCanvas.flatten ∧ 3 ∈ scenCanvas.flatten) := by
  set_option maxRecDepth 10000 in decide

theorem mem_segLabelsList {v : Nat} {g : Grid} :
    v ∈ segLabelsList g ↔ (v ≠ 0 ∧ v ∈ g.flatten) := by
  unfold segLabelsList
  rw [(List.perm_insertionSort (· ≤ ·) _).mem_iff]
  simp only [List.mem_filter, List.mem_dedup, bne_iff_ne, ne_eq]
  exact and_comm

theorem mem_specLabels {v : Nat} {g : Grid} :
    v ∈ specLabels g ↔ (v ≠ 0 ∧ v ∈ g.flatten) := by
  unfold specLabels
  simp only [List.mem_filter, List.mem_range, decide_eq_true_eq, ne_eq]
  constructor
  · rintro ⟨_, h⟩; exact h
  · intro h; exact ⟨Nat.lt_succ_of_le (mem_le_maxl h.2), h⟩

theorem sorted_segLabelsList (g : Grid) :
    List.Sorted (· ≤ ·) (segLabelsList g) :=
  List.sorted_insertionSort (· ≤ ·) _

theorem sorted_specLabels (g : Grid) : List.Sorted (· ≤ ·) (specLabels g) :=
  ((List.pairwise_lt_range _).filter _).imp le_of_lt

theorem nodup_segLabelsList (g : Grid) : (segLabelsList g).Nodup :=
  ((List.perm_insertionSort (· ≤ ·) _).nodup_iff).mpr
    ((List.nodup_dedup _).filter _)

theorem nodup_specLabels (g : Grid) : (specLabels g).Nodup :=
  (List.nodup_range _).filter _

theorem segLabelsList_eq_specLabels (g : Grid) :
    segLabelsList g = specLabels g := by
  apply List.eq_of_perm_of_sorted _ (sorted_segLabelsList g) (sorted_specLabels g)
  refine (List.perm_ext_iff_of_nodup (nodup_segLabelsList g) (nodup_specLabels g)).mpr
    (fun a => ?_)
  rw [mem_segLabelsList, mem_specLabels]

/-- Counterexample for C6: on the label map [[1],[0],[1],[1]] the region
labelled 1 has row indices 0, 2, 3, so its row centroid is 5/3.  The
source truncates (`int()`), centring the crop at row 1, while the claim's
nearest-integer rounding would centre it at row 2, so the claimed output
differs from the code's. -/
theorem segment_crops_round_counterexample :
    segment_crops [[9], [9], [9], [9]] [[1], [0], [1], [1]] none none ≠
      segment_cropsClaim [[9], [9], [9], [9]] [[1], [0], [1], [1]] none none := by
  decide

/-- C6 (amended): `segment_crops` enumerates the distinct nonzero label
values in ascending order and produces one crop per label in that order,
each centred at the label's centroid truncated toward zero (the floor of
the mean row and column indices, as Python `int()` truncates) — not
rounded to the nearest integer; an empty label map yields an empty
sequence. -/
theorem segment_crops_spec (img seg : Grid) (xs ys : Option Nat) :
    segment_crops img seg xs ys =
      (specLabels seg).map
        (fun l => crop img (centreOf seg l).1 (centreOf seg l).2 xs ys) ∧
    ((∀ v ∈ seg.flatten, v = 0) → segment_crops img seg xs ys = []) := by
  have hmain : segment_crops img seg xs ys =
      (specLabels seg).map
        (fun l => crop img (centreOf seg l).1 (centreOf seg l).2 xs ys) := by
    unfold segment_crops
    rw [segLabelsList_eq_specLabels, List.map_map]
    rfl
  refine ⟨hmain, fun hzero => ?_⟩
  have hempty : specLabels seg = [] := by
    refine List.eq_nil_iff_forall_not_mem.mpr (fun v hv => ?_)
    rw [mem_specLabels] at hv
    exact hv.1 (hzero v hv.2)
  rw [hmain, hempty]
  rfl

/-- Witness for C6's amended theorem: the all-zero one-pixel label map
yields no crops. -/
theorem segment_crops_spec_witness :
    segment_crops [[5]] [[0]] none none = [] ∧ (0 : Nat) ∈ ([[0]] : Grid).flatten :=
  ⟨(segment_crops_spec [[5]] [[0]] none none).2 (by decide), by decide⟩

/-- C7: constructing the pretrained-model backend from a handle that is
not a keras model fails with the construction-time error (the spec's
ConfigurationError); when construction succeeds, its segment operation
returns the model's output on the input array unchanged, with no
validation of shape or values. -/
theorem pretrained_construction_and_identity :
    (∀ d, mkPretrainedTensorflow (.notKeras d)
        = .error (.config "model should be a tf keras model instance")) ∧
    (∀ (f : Grid → Grid) (arr : Grid) (m : SegmentationModelPretrainedTensorflow),
      mkPretrainedTensorflow (.keras f) = .ok m → m.segmentArr arr = f arr) :=
  ⟨fun _ => rfl, fun f arr m hm => by cases hm; rfl⟩

/-- Witness for C7: a non-model handle is rejected; a constructed
identity model passes its input through unchanged. -/
theorem pretrained_construction_and_identity_witness :
    mkPretrainedTensorflow (.notKeras "a plain string")
        = .error (.config "model should be a tf keras model instance") ∧
    SegmentationModelPretrainedTensorflow.segmentArr ⟨fun g => g⟩ [[7]] = [[7]] :=
  ⟨pretrained_construction_and_identity.1 "a plain string",
   pretrained_construction_and_identity.2 (fun g => g) [[7]] ⟨fun g => g⟩ rfl⟩

/-- C8: with an integer `channel_idx` each tile contributes only that
channel (the channel axis dropped, as the integer indexing does); with a
non-integer `channel_idx` every tile is passed through with all its
channels unchanged (the tiles of one equal tiling all share the first
tile's channel count, which the slice uses). -/
theorem channelSelect_spec :
    (∀ (i : Nat) (tiles : List (List Grid)),
      channelSelect (some i) tiles
        = tiles.map (fun t => .twoD (t.getD i []))) ∧
    (∀ tiles : List (List Grid),
      (∀ t ∈ tiles, t.length = (tiles.headD []).length) →
      channelSelect none tiles = tiles.map .threeD) := by
  refine ⟨fun i tiles => rfl, fun tiles hlen => ?_⟩
  unfold channelSelect
  refine List.map_congr_left (fun t ht => ?_)
  rw [← hlen t ht, List.take_length]

/-- Witness for C8 on a one-tile, one-channel input. -/
theorem channelSelect_spec_witness :
    channelSelect (some 0) [[[[1]]]] = [.twoD [[1]]] ∧
    channelSelect none [[[[1]]]] = [.threeD [[[1]]]] :=
  ⟨channelSelect_spec.1 0 [[[[1]]]], channelSelect_spec.2 [[[[1]]]] (by decide)⟩

/-- C9: running the crop extractor twice on the same (label map, image)
pair yields identical crop sequences, and the first run leaves the
container unchanged, so the second run sees the same inputs. -/
theorem segment_crops_idempotent (cont : Container) (img_id seg_id : String)
    (xs ys : Option Nat) :
    (segmentCropsState cont img_id seg_id xs ys).1
        = (segmentCropsState (segmentCropsState cont img_id seg_id xs ys).2
            img_id seg_id xs ys).1 ∧
    (segmentCropsState cont img_id seg_id xs ys).2 = cont :=
  ⟨rfl, rfl⟩

/-- C10: `extract` never mutates its input AnnData — the input's state
after the call is its state before it, for every obsm_key and prefix —
and the new obs columns land only on the returned copy, whose obsm is the
input's obsm unchanged. -/
theorem extract_does_not_mutate_input (adata : AnnData) (obsm_key : StrOrList)
    (pfx : Option StrOrList) :
    (extract adata obsm_key pfx).2 = adata ∧
    (∀ t, (extract adata obsm_key pfx).1 = .ok t → t.obsm = adata.obsm) := by
  refine ⟨rfl, fun t ht => ?_⟩
  have ht' : (match mkPrefixes obsm_key.toListStr pfx with
      | Except.error e => (Except.error e : Except String AnnData)
      | Except.ok ps => extractLoop adata (obsm_key.toListStr.zip ps) adata)
      = Except.ok t := ht
  cases h : mkPrefixes obsm_key.toListStr pfx with
  | error e => rw [h] at ht'; cases ht'
  | ok ps =>
    rw [h] at ht'
    exact extractLoop_obsm adata _ adata t ht'

/-- Witness for C10: extracting the one-column obsm array "k" adds the
column "0" to the copy and leaves the input untouched. -/
theorem extract_does_not_mutate_input_witness :
    (extract ⟨[("a", [1])], [("k", ObsmEntry.mat [[2]])]⟩ (.one "k") none).2
        = ⟨[("a", [1])], [("k", ObsmEntry.mat [[2]])]⟩ ∧
    AnnData.obsm ⟨[("a", [1]), ("0", [2])], [("k", ObsmEntry.mat [[2]])]⟩
        = AnnData.obsm ⟨[("a", [1])], [("k", ObsmEntry.mat [[2]])]⟩ :=
  ⟨(extract_does_not_mutate_input _ _ _).1,
   (extract_does_not_mutate_input ⟨[("a", [1])], [("k", ObsmEntry.mat [[2]])]⟩
       (.one "k") none).2
     ⟨[("a", [1]), ("0", [2])], [("k", ObsmEntry.mat [[2]])]⟩ rfl⟩

end Squidpy
